import Mathlib

/-!
# FramelessHelper, Linux backend (`src/core/utils_linux.cpp`)

A shallow embedding of the Linux utility functions of FramelessHelper and
the proofs of the properties stated about them.

Conventions of the embedding

* Pointers that the code only tests against null and hands on are natural
  numbers, `0` being `nullptr`; pointers to objects whose members are read
  are `Option`s of a structure.
* The process, the GUI toolkit, GTK and the X server are explicit state
  records that every function receives.
* `Q_ASSERT` is kept: a build either compiles the assertions in (they abort
  the process when they fail) or compiles them out (`QT_NO_DEBUG`).
* Preprocessor conditionals (`QT_VERSION`, `FRAMELESSHELPER_CORE_NO_PRIVATE`)
  are fields of `BuildConfig`.
* A store that is wider than the object it is aimed at is kept as the bytes
  that land in the object and the bytes that land behind it; whether the build
  traps the latter, and the byte order of the target, are fields of
  `BuildConfig` too.
* Functions that talk to the X server or to Qt return the list of requests
  they issued, in order, next to their outcome.
-/

namespace FramelessHelper

/-! ## Outcomes -/

/-- Abnormal ends of a call: a failed `Q_ASSERT`, a null pointer handed to
a library that dereferences it, or a store past the end of a local object that
the build traps. -/
inductive Fault where
  | assertion
  | crash
  | overrun
  deriving DecidableEq, Repr

/-- Outcome of a call: it returns a value, or the process stops. -/
inductive Outcome (α : Type) where
  | returned (value : α)
  | aborted (fault : Fault)
  deriving DecidableEq, Repr

/-- Build-time configuration of the translation unit. -/
structure BuildConfig where
  /-- Value of the `QT_VERSION` preprocessor constant. -/
  QT_VERSION : Nat
  /-- Whether `FRAMELESSHELPER_CORE_NO_PRIVATE` is defined. -/
  FRAMELESSHELPER_CORE_NO_PRIVATE : Bool
  /-- Whether `Q_ASSERT` is compiled in (it is unless `QT_NO_DEBUG` is defined). -/
  assertsEnabled : Bool
  /-- Whether the build stops the process on a store past the end of a local
  object (a stack protector, the address sanitizer). -/
  trapsOverrun : Bool
  /-- Whether the target keeps the most significant byte of an integer first. -/
  bigEndian : Bool
  deriving DecidableEq, Repr

/-- Qt packs a version number as `(major << 16) | (minor << 8) | patch`. -/
def QT_VERSION_CHECK (major minor patch : Nat) : Nat :=
  major * 65536 + minor * 256 + patch

/-! ## Strings -/

/-- A `QString`, as the sequence of its characters. -/
abbrev QString := List Char

/-- Qt's `Qt::CaseSensitivity`. -/
inductive CaseSensitivity where
  | CaseInsensitive
  | CaseSensitive
  deriving DecidableEq, Repr

/-- Character map applied before comparing: Qt's case folding `fold`
for a case-insensitive comparison, nothing for a case-sensitive one. -/
def comparisonKey (fold : Char → Char) : CaseSensitivity → Char → Char
  | .CaseInsensitive => fold
  | .CaseSensitive => id

/-- Whether `needle` occurs at the very start of `hay` under the key map. -/
def matchesAt (key : Char → Char) (hay needle : QString) : Bool :=
  (hay.take needle.length).map key == needle.map key

/-- Left-to-right search of `QtPrivate::findString`: the first index at or
after `i` (the index of the head of `hay`) where `needle` matches, if any. -/
def findString (key : Char → Char) : QString → QString → Nat → Option Nat
  | [], needle, i => if matchesAt key [] needle then some i else none
  | c :: cs, needle, i =>
      if matchesAt key (c :: cs) needle then some i
      else findString key cs needle (i + 1)

/-- The call `QString::contains(needle, cs)`, which is `indexOf(needle, 0, cs) != -1`. -/
def QString.contains (fold : Char → Char) (hay needle : QString)
    (cs : CaseSensitivity) : Bool :=
  (findString (comparisonKey fold cs) hay needle 0).isSome

/-- The call `QString::isEmpty()`. -/
def QString.isEmpty (s : QString) : Bool :=
  s.length == 0

/-- The words "contains the substring, compared case-insensitively": some
contiguous part of `hay` has the same case-folded characters as `needle`. -/
def ContainsIgnoringCase (fold : Char → Char) (hay needle : QString) : Prop :=
  ∃ pre mid post, hay = pre ++ mid ++ post ∧ mid.map fold = needle.map fold

/-- Modelled from the spec: the constant `kdark` that the macro
`FRAMELESSHELPER_STRING_CONSTANT(dark)`, defined outside this file, declares:
the string "dark". -/
def kdark : QString := "dark".data

/-! ## Theme detection -/

/-- Name of the environment variable that overrides the GTK theme. -/
def GTK_THEME_NAME_ENV_VAR : String := "GTK_THEME"

/-- Name of the GTK property holding the theme name. -/
def GTK_THEME_NAME_PROP : String := "gtk-theme-name"

/-- Name of the GTK property holding the dark-variant preference. -/
def GTK_THEME_PREFER_DARK_PROP : String := "gtk-application-prefer-dark-theme"

/-- The two properties of the `GtkSettings` object that the code reads.
A `gchararray` is a C string pointer and may be `NULL` (`none`). -/
structure GtkSettings where
  gtk_application_prefer_dark_theme : Bool
  gtk_theme_name : Option QString
  deriving DecidableEq, Repr

/-- What theme detection reads from outside: the process environment and
the result of `gtk_settings_get_default()` (`none` is `NULL`). -/
structure DesktopState where
  environ : String → Option QString
  gtkSettings : Option GtkSettings

/-- The call `qEnvironmentVariable(name)`: the value, or a null (empty)
string when the variable is not set. -/
def qEnvironmentVariable (st : DesktopState) (name : String) : QString :=
  (st.environ name).getD []

/-- Size in bytes of the C++ type `bool`. -/
def sizeof_bool : Nat := 1

/-- Size in bytes of the GLib type `gboolean`, which is `gint`. -/
def sizeof_gboolean : Nat := 4

/-- The bytes of a `gboolean` in memory order: `TRUE` is the integer 1 and
`FALSE` the integer 0. -/
def gbooleanBytes (bigEndian : Bool) (value : Bool) : List Nat :=
  if bigEndian then [0, 0, 0, value.toNat] else [value.toNat, 0, 0, 0]

/-- Memory at the address of a local `bool` after a call stored there: the
bytes that fell into the object, and the bytes that were stored past its end. -/
structure StoredBool where
  object : List Nat
  overrun : List Nat
  deriving DecidableEq, Repr

/-- Reading a `bool` object: any non-zero byte is true. -/
def StoredBool.value (stored : StoredBool) : Bool :=
  stored.object.any fun byte => byte != 0

/-- The call `g_object_get(settings, name, &result, nullptr)` where `result`
is a C++ `bool`, as `gtkSetting<bool>` makes it. For the boolean property GLib
stores a whole `gboolean` at the address it is given: the first
`sizeof_bool` bytes land in `result`, the other bytes land behind it. When
there is no such property nothing is stored and `result` is as it was. -/
def g_object_get_bool (bigEndian : Bool) (settings : GtkSettings)
    (propertyName : String) (result : Bool) : StoredBool :=
  if propertyName = GTK_THEME_PREFER_DARK_PROP then
    { object :=
        (gbooleanBytes bigEndian settings.gtk_application_prefer_dark_theme).take sizeof_bool
      overrun :=
        (gbooleanBytes bigEndian settings.gtk_application_prefer_dark_theme).drop sizeof_bool }
  else { object := [result.toNat], overrun := [] }

/-- The call `g_object_get(settings, name, &result, nullptr)` for a string
property: `result` is left as it was when there is no such property. -/
def g_object_get_gchararray (settings : GtkSettings) (propertyName : String)
    (result : Option QString) : Option QString :=
  if propertyName = GTK_THEME_NAME_PROP then settings.gtk_theme_name else result

/-- The instance `gtkSetting<bool>`. Its local `result` is a one-byte `bool`
and `g_object_get` stores a four-byte `gboolean` there: three bytes go past the
end of the object. A build that traps such a store never returns from the
call; otherwise the bytes behind `result` are overwritten (what they belonged
to is outside the model) and the byte that landed in `result` is returned. -/
def gtkSetting_bool (cfg : BuildConfig) (st : DesktopState)
    (propertyName : Option String) : Outcome Bool :=
  match propertyName with
  | none =>
      -- Q_ASSERT(propertyName); if (!propertyName) return {};
      if cfg.assertsEnabled then .aborted .assertion else .returned false
  | some name =>
      match st.gtkSettings with
      | none =>
          -- Q_ASSERT(settings); if (!settings) return {};
          if cfg.assertsEnabled then .aborted .assertion else .returned false
      | some settings =>
          -- T result = {}; g_object_get(settings, propertyName, &result, nullptr);
          let stored := g_object_get_bool cfg.bigEndian settings name false
          if cfg.trapsOverrun && !stored.overrun.isEmpty then .aborted .overrun
          else
            -- return result;
            .returned stored.value

/-- The instance `gtkSetting<gchararray>`. -/
def gtkSetting_gchararray (cfg : BuildConfig) (st : DesktopState)
    (propertyName : Option String) : Outcome (Option QString) :=
  match propertyName with
  | none =>
      if cfg.assertsEnabled then .aborted .assertion else .returned none
  | some name =>
      match st.gtkSettings with
      | none =>
          if cfg.assertsEnabled then .aborted .assertion else .returned none
      | some settings => .returned (g_object_get_gchararray settings name none)

/-- Modelled from the spec: the macro `QUtf8String`, defined outside this file,
which is `QString::fromUtf8`: a null pointer gives the empty string. -/
def QUtf8String (str : Option QString) : QString :=
  str.getD []

/-- The overload `QString gtkSetting(const gchar *)`. -/
def gtkSetting (cfg : BuildConfig) (st : DesktopState)
    (propertyName : Option String) : Outcome QString :=
  match propertyName with
  | none =>
      if cfg.assertsEnabled then .aborted .assertion else .returned []
  | some name =>
      match gtkSetting_gchararray cfg st (some name) with
      | .aborted f => .aborted f
      | .returned propertyValue => .returned (QUtf8String propertyValue)

/-- The function `Utils::shouldAppsUseDarkMode_linux`. -/
def shouldAppsUseDarkMode_linux (cfg : BuildConfig) (fold : Char → Char)
    (st : DesktopState) : Outcome Bool :=
  let envThemeName := qEnvironmentVariable st GTK_THEME_NAME_ENV_VAR
  if !envThemeName.isEmpty then
    .returned (envThemeName.contains fold kdark .CaseInsensitive)
  else
    match gtkSetting_bool cfg st (some GTK_THEME_PREFER_DARK_PROP) with
    | .aborted f => .aborted f
    | .returned preferDark =>
        if preferDark then .returned true
        else
          match gtkSetting cfg st (some GTK_THEME_NAME_PROP) with
          | .aborted f => .aborted f
          | .returned curThemeName =>
              if !curThemeName.isEmpty then
                .returned (curThemeName.contains fold kdark .CaseInsensitive)
              else .returned false

/-- Modelled from the spec: the enumeration `Global::SystemTheme`, declared in
the global header of the library and not in this file; `Dark`, `Light` and the
high contrast theme are the members the stated properties name. -/
inductive SystemTheme where
  | Unknown
  | Light
  | Dark
  | HighContrast
  deriving DecidableEq, Repr

/-- The function `Utils::getSystemTheme`; its argument is what the call
`shouldAppsUseDarkMode()` returns. -/
def getSystemTheme (shouldAppsUseDarkMode : Bool) : SystemTheme :=
  if shouldAppsUseDarkMode then SystemTheme.Dark else SystemTheme.Light

/-! ## Blur behind -/

/-- The function `Utils::setBlurBehindWindowEnabled`; the blur mode and colour
types are declared outside this file and are left abstract. -/
def setBlurBehindWindowEnabled {BlurMode QColor : Type} (windowId : Nat)
    (mode : BlurMode) (color : QColor) : Bool :=
  -- Q_UNUSED(windowId); Q_UNUSED(mode); Q_UNUSED(color);
  let _ := windowId
  let _ := mode
  let _ := color
  false

/-- What `Utils::isBlurBehindWindowSupported` reads: whether
`FramelessConfig::instance()->isSet(Option::ForceNonNativeBackgroundBlur)` holds. -/
structure FramelessConfig where
  isSet_ForceNonNativeBackgroundBlur : Bool
  deriving DecidableEq, Repr

/-- The initialiser of the function-local static `result` in
`Utils::isBlurBehindWindowSupported`. -/
def isBlurBehindWindowSupported_init (config : FramelessConfig) : Bool :=
  if config.isSet_ForceNonNativeBackgroundBlur then false
  else
    -- Currently not supported due to the desktop environments vary too much.
    false

/-- The function `Utils::isBlurBehindWindowSupported`. The function-local
static is passed in and out: `none` before the first call, and the value the
initialiser computed ever after. The pair is the returned value and the static. -/
def isBlurBehindWindowSupported (config : FramelessConfig)
    (result : Option Bool) : Bool × Option Bool :=
  match result with
  | some r => (r, some r)
  | none =>
      let r := isBlurBehindWindowSupported_init config
      (r, some r)

/-- Successive calls of `Utils::isBlurBehindWindowSupported`, one per
configuration in the list, threading the static: the values returned. -/
def isBlurBehindWindowSupported_calls :
    List FramelessConfig → Option Bool → List Bool
  | [], _ => []
  | config :: rest, result =>
      (isBlurBehindWindowSupported config result).1 ::
        isBlurBehindWindowSupported_calls rest
          (isBlurBehindWindowSupported config result).2

/-! ## Window edges -/

/-- The flag `Qt::TopEdge`. -/
def TopEdge : Nat := 1

/-- The flag `Qt::LeftEdge`. -/
def LeftEdge : Nat := 2

/-- The flag `Qt::RightEdge`. -/
def RightEdge : Nat := 4

/-- The flag `Qt::BottomEdge`. -/
def BottomEdge : Nat := 8

/-- The test `edges & flag` of `QFlags`, read as a condition. -/
def testEdge (edges flag : Nat) : Bool :=
  (edges &&& flag) != 0

/-- The edge set `edges` with the bits of `flag` taken out. -/
def withoutEdge (edges flag : Nat) : Nat :=
  edges ^^^ (edges &&& flag)

def _NET_WM_MOVERESIZE_SIZE_TOPLEFT : Int := 0

def _NET_WM_MOVERESIZE_SIZE_TOP : Int := 1

def _NET_WM_MOVERESIZE_SIZE_TOPRIGHT : Int := 2

def _NET_WM_MOVERESIZE_SIZE_RIGHT : Int := 3

def _NET_WM_MOVERESIZE_SIZE_BOTTOMRIGHT : Int := 4

def _NET_WM_MOVERESIZE_SIZE_BOTTOM : Int := 5

def _NET_WM_MOVERESIZE_SIZE_BOTTOMLEFT : Int := 6

def _NET_WM_MOVERESIZE_SIZE_LEFT : Int := 7

def _NET_WM_MOVERESIZE_MOVE : Int := 8

/-- The function `qtEdgesToWmMoveOrResizeOperation`; `edges` is the integer
stored in the `Qt::Edges` flag set. -/
def qtEdgesToWmMoveOrResizeOperation (edges : Nat) : Int :=
  if edges = 0 then -1
  else if testEdge edges TopEdge then
    if testEdge edges LeftEdge then _NET_WM_MOVERESIZE_SIZE_TOPLEFT
    else if testEdge edges RightEdge then _NET_WM_MOVERESIZE_SIZE_TOPRIGHT
    else _NET_WM_MOVERESIZE_SIZE_TOP
  else if testEdge edges BottomEdge then
    if testEdge edges LeftEdge then _NET_WM_MOVERESIZE_SIZE_BOTTOMLEFT
    else if testEdge edges RightEdge then _NET_WM_MOVERESIZE_SIZE_BOTTOMRIGHT
    else _NET_WM_MOVERESIZE_SIZE_BOTTOM
  else if testEdge edges LeftEdge then _NET_WM_MOVERESIZE_SIZE_LEFT
  else if testEdge edges RightEdge then _NET_WM_MOVERESIZE_SIZE_RIGHT
  else -1

/-! ## Machine integers -/

/-- Conversion of an integer to an unsigned 32-bit value. -/
def toUInt32 (n : Int) : Nat :=
  (n % 4294967296).toNat

/-- Conversion of an integer to a signed 32-bit value (`int`). -/
def toInt32 (n : Int) : Int :=
  if n % 4294967296 < 2147483648 then n % 4294967296 else n % 4294967296 - 4294967296

/-- The values of the C type `int`. -/
def IsCInt (n : Int) : Prop :=
  -2147483648 ≤ n ∧ n < 2147483648

/-! ## The X11 accessors -/

/-- A `QScreen`. `xcbVirtualDesktopNumber` is the virtual desktop number of
its platform handle when that handle is a `QXcbScreen`, and `none` when the
`dynamic_cast` to `QXcbScreen` gives null. -/
structure QScreen where
  id : Nat
  xcbVirtualDesktopNumber : Option Int
  deriving DecidableEq, Repr

/-- The interface `QNativeInterface::QX11Application` (Qt 6.2 and later). -/
structure QX11Application where
  display : Nat
  connection : Nat
  deriving DecidableEq, Repr

/-- A `QPlatformNativeInterface`: the resource look-ups, which return untyped
pointers, and the outcome of the `dynamic_cast` to `QX11Application` by which
Qt resolves `nativeInterface<QX11Application>()`. -/
structure QPlatformNativeInterface where
  nativeResourceForIntegration : String → Nat
  nativeResourceForScreen : String → QScreen → Nat
  x11Application : Option QX11Application

/-- The application object behind `qApp`. -/
structure QGuiApplication where
  platformNativeInterface : Option QPlatformNativeInterface

/-- The call `qApp->nativeInterface<QNativeInterface::QX11Application>()`:
Qt resolves it by casting the platform native interface. -/
def QGuiApplication.nativeInterface_QX11Application (app : QGuiApplication) :
    Option QX11Application :=
  app.platformNativeInterface.bind fun native => native.x11Application

/-- State of the GUI toolkit: `qApp` (`none` is null), the results of
`QGuiApplication::primaryScreen()` and `QGuiApplication::screens()`, and the
C strings found in memory behind non-null `char *` pointers. -/
structure GuiState where
  qApp : Option QGuiApplication
  primaryScreen : Option QScreen
  screens : List QScreen
  cString : Nat → List Nat

/-- Modelled from the spec: the constant that the macro
`FRAMELESSHELPER_BYTEARRAY_CONSTANT(rootwindow)`, defined outside this file,
declares; the seven constants after it come from the same macro. -/
def krootwindow : String := "rootwindow"

def kx11screen : String := "x11screen"

def kapptime : String := "apptime"

def kappusertime : String := "appusertime"

def kgettimestamp : String := "gettimestamp"

def kstartupid : String := "startupid"

def kdisplay : String := "display"

def kconnection : String := "connection"

/-- The Qt 5 call `QXcbScreenFunctions::virtualDesktopNumber(screen)`: the
number of the xcb screen, and a value-initialised `int` when the platform
does not provide the function. -/
def QXcbScreenFunctions_virtualDesktopNumber (screen : QScreen) : Int :=
  screen.xcbVirtualDesktopNumber.getD 0

/-- The condition under which the loop of `x11_findScreenForVirtualDesktop`
returns `screen`. -/
def screenIsOnVirtualDesktop (cfg : BuildConfig) (screen : QScreen)
    (virtualDesktopNumber : Int) : Bool :=
  if cfg.QT_VERSION ≥ QT_VERSION_CHECK 6 0 0 then
    match screen.xcbVirtualDesktopNumber with
    | some n => n == virtualDesktopNumber
    | none => false
  else
    QXcbScreenFunctions_virtualDesktopNumber screen == virtualDesktopNumber

/-- The function `x11_findScreenForVirtualDesktop`. -/
def x11_findScreenForVirtualDesktop (cfg : BuildConfig) (st : GuiState)
    (virtualDesktopNumber : Int) : Option QScreen :=
  if cfg.FRAMELESSHELPER_CORE_NO_PRIVATE then st.primaryScreen
  else if virtualDesktopNumber = -1 then st.primaryScreen
  else if st.screens.isEmpty then none
  else st.screens.find? fun screen =>
    screenIsOnVirtualDesktop cfg screen virtualDesktopNumber

/-- The function `x11_appRootWindow`. -/
def x11_appRootWindow (cfg : BuildConfig) (st : GuiState) (screen : Int) : Nat :=
  if cfg.FRAMELESSHELPER_CORE_NO_PRIVATE then 0
  else
    match st.qApp with
    | none => 0
    | some app =>
        match app.platformNativeInterface with
        | none => 0
        | some native =>
            match (if screen = -1 then st.primaryScreen
                   else x11_findScreenForVirtualDesktop cfg st screen) with
            | none => 0
            | some scr => native.nativeResourceForScreen krootwindow scr % 4294967296

/-- The function `x11_appScreen`. -/
def x11_appScreen (cfg : BuildConfig) (st : GuiState) : Int :=
  if cfg.FRAMELESSHELPER_CORE_NO_PRIVATE then 0
  else
    match st.qApp with
    | none => 0
    | some app =>
        match app.platformNativeInterface with
        | none => 0
        | some native => toInt32 (native.nativeResourceForIntegration kx11screen)

/-- The function `x11_appTime`. -/
def x11_appTime (cfg : BuildConfig) (st : GuiState) : Nat :=
  if cfg.FRAMELESSHELPER_CORE_NO_PRIVATE then 0
  else
    match st.qApp with
    | none => 0
    | some app =>
        match app.platformNativeInterface with
        | none => 0
        | some native =>
            match st.primaryScreen with
            | none => 0
            | some screen => native.nativeResourceForScreen kapptime screen % 4294967296

/-- The function `x11_appUserTime`. -/
def x11_appUserTime (cfg : BuildConfig) (st : GuiState) : Nat :=
  if cfg.FRAMELESSHELPER_CORE_NO_PRIVATE then 0
  else
    match st.qApp with
    | none => 0
    | some app =>
        match app.platformNativeInterface with
        | none => 0
        | some native =>
            match st.primaryScreen with
            | none => 0
            | some screen => native.nativeResourceForScreen kappusertime screen % 4294967296

/-- The function `x11_getTimestamp`. -/
def x11_getTimestamp (cfg : BuildConfig) (st : GuiState) : Nat :=
  if cfg.FRAMELESSHELPER_CORE_NO_PRIVATE then 0
  else
    match st.qApp with
    | none => 0
    | some app =>
        match app.platformNativeInterface with
        | none => 0
        | some native =>
            match st.primaryScreen with
            | none => 0
            | some screen => native.nativeResourceForScreen kgettimestamp screen % 4294967296

/-- Construction of a `QByteArray` from a `char *`: empty for a null pointer. -/
def QByteArray_fromCString (st : GuiState) (p : Nat) : List Nat :=
  if p = 0 then [] else st.cString p

/-- The function `x11_nextStartupId`. -/
def x11_nextStartupId (cfg : BuildConfig) (st : GuiState) : List Nat :=
  if cfg.FRAMELESSHELPER_CORE_NO_PRIVATE then []
  else
    match st.qApp with
    | none => []
    | some app =>
        match app.platformNativeInterface with
        | none => []
        | some native =>
            QByteArray_fromCString st (native.nativeResourceForIntegration kstartupid)

/-- The function `x11_display`. -/
def x11_display (cfg : BuildConfig) (st : GuiState) : Nat :=
  if cfg.FRAMELESSHELPER_CORE_NO_PRIVATE then 0
  else
    match st.qApp with
    | none => 0
    | some app =>
        if cfg.QT_VERSION ≥ QT_VERSION_CHECK 6 2 0 then
          match app.nativeInterface_QX11Application with
          | none => 0
          | some native => native.display
        else
          match app.platformNativeInterface with
          | none => 0
          | some native => native.nativeResourceForIntegration kdisplay

/-- The function `x11_connection`. -/
def x11_connection (cfg : BuildConfig) (st : GuiState) : Nat :=
  if cfg.FRAMELESSHELPER_CORE_NO_PRIVATE then 0
  else
    match st.qApp with
    | none => 0
    | some app =>
        if cfg.QT_VERSION ≥ QT_VERSION_CHECK 6 2 0 then
          match app.nativeInterface_QX11Application with
          | none => 0
          | some native => native.connection
        else
          match app.platformNativeInterface with
          | none => 0
          | some native => native.nativeResourceForIntegration kconnection

/-! ## Requests to the X server and to Qt -/

/-- The xcb constant `XCB_CLIENT_MESSAGE`. -/
def XCB_CLIENT_MESSAGE : Nat := 33

/-- The xcb constant `XCB_BUTTON_INDEX_1`. -/
def XCB_BUTTON_INDEX_1 : Nat := 1

/-- The xcb constant `XCB_EVENT_MASK_SUBSTRUCTURE_NOTIFY`. -/
def XCB_EVENT_MASK_SUBSTRUCTURE_NOTIFY : Nat := 524288

/-- The xcb constant `XCB_EVENT_MASK_SUBSTRUCTURE_REDIRECT`. -/
def XCB_EVENT_MASK_SUBSTRUCTURE_REDIRECT : Nat := 1048576

def _NET_WM_SENDEVENT_MASK : Nat :=
  XCB_EVENT_MASK_SUBSTRUCTURE_REDIRECT ||| XCB_EVENT_MASK_SUBSTRUCTURE_NOTIFY

def _NET_WM_MOVERESIZE_ATOM_NAME : String := "_NET_WM_MOVERESIZE"

/-- The call `qstrlen`: the length up to the first terminator. -/
def qstrlen (s : String) : Nat :=
  s.length

/-- A `QPoint`; the coordinates are C `int`s. -/
structure QPoint where
  x : Int
  y : Int
  deriving DecidableEq, Repr

/-- The xcb structure `xcb_client_message_event_t`; `data32` is the view of
its 20-byte data union as five 32-bit words. -/
structure xcb_client_message_event_t where
  response_type : Nat
  format : Nat
  sequence : Nat
  window : Nat
  type : Nat
  data32 : List Nat
  deriving DecidableEq, Repr

/-- The xcb structure `xcb_button_release_event_t`. -/
structure xcb_button_release_event_t where
  response_type : Nat
  detail : Nat
  sequence : Nat
  time : Nat
  root : Nat
  event : Nat
  child : Nat
  root_x : Int
  root_y : Int
  event_x : Int
  event_y : Int
  state : Nat
  same_screen : Nat
  pad0 : Nat
  deriving DecidableEq, Repr

/-- The 32 bytes handed to `xcb_send_event`, by the structure they hold. -/
inductive XEvent where
  | clientMessage (xev : xcb_client_message_event_t)
  | buttonRelease (xev : xcb_button_release_event_t)
  deriving DecidableEq, Repr

/-- One observable step: a request put on the X connection `c`, or a call of
the system move / resize of the `QWindow` with the given identity. -/
inductive Action where
  | xcb_intern_atom (c : Nat) (only_if_exists : Bool) (name_len : Nat) (name : String)
  | xcb_ungrab_pointer (c : Nat) (time : Nat)
  | xcb_send_event (c : Nat) (propagate : Bool) (destination : Nat)
      (event_mask : Nat) (event : XEvent)
  | xcb_flush (c : Nat)
  | QWindow_startSystemMove (window : Nat)
  | QWindow_startSystemResize (window : Nat) (edges : Nat)
  deriving DecidableEq, Repr

/-- A run of a function: the actions it performed, in order, and how it ended. -/
structure Run (α : Type) where
  trace : List Action
  outcome : Outcome α

/-- A run that returns at once. -/
def Run.ret {α : Type} (a : α) : Run α :=
  { trace := [], outcome := .returned a }

/-- A run that stops the process at once. -/
def Run.fail {α : Type} (f : Fault) : Run α :=
  { trace := [], outcome := .aborted f }

/-- A run that performs one action and returns. -/
def Run.emit (a : Action) : Run Unit :=
  { trace := [a], outcome := .returned () }

/-- Sequencing: the second run happens only if the first one returns. -/
def Run.andThen {α β : Type} (x : Run α) (f : α → Run β) : Run β :=
  match x.outcome with
  | .aborted fault => { trace := x.trace, outcome := .aborted fault }
  | .returned a => { trace := x.trace ++ (f a).trace, outcome := (f a).outcome }

instance : Monad Run where
  pure := Run.ret
  bind := Run.andThen

/-- The macro `Q_ASSERT(cond)`. -/
def Q_ASSERT (cfg : BuildConfig) (cond : Bool) : Run Unit :=
  if cfg.assertsEnabled && !cond then Run.fail .assertion else Run.ret ()

/-- The call `xcb_intern_atom`; libxcb dereferences the connection. -/
def xcb_intern_atom (c : Nat) (only_if_exists : Bool) (name_len : Nat)
    (name : String) : Run Unit :=
  if c = 0 then Run.fail .crash
  else Run.emit (.xcb_intern_atom c only_if_exists name_len name)

/-- The call `xcb_ungrab_pointer`; libxcb dereferences the connection. -/
def xcb_ungrab_pointer (c : Nat) (time : Nat) : Run Unit :=
  if c = 0 then Run.fail .crash else Run.emit (.xcb_ungrab_pointer c time)

/-- The call `xcb_send_event`; libxcb dereferences the connection. -/
def xcb_send_event (c : Nat) (propagate : Bool) (destination event_mask : Nat)
    (event : XEvent) : Run Unit :=
  if c = 0 then Run.fail .crash
  else Run.emit (.xcb_send_event c propagate destination event_mask event)

/-- The call `xcb_flush`; libxcb dereferences the connection. -/
def xcb_flush (c : Nat) : Run Unit :=
  if c = 0 then Run.fail .crash else Run.emit (.xcb_flush c)

/-- What the X server answers: for an atom name, the `atom` field of the
reply that `xcb_intern_atom_reply` returns, `none` when it returns null. -/
structure XServer where
  internAtomReply : String → Option Nat

/-- The initialiser of the function-local static `netMoveResize` in
`doStartSystemMoveResize`. -/
def netMoveResize_init (cfg : BuildConfig) (xs : XServer) (connection : Nat) :
    Run Nat := do
  xcb_intern_atom connection false (qstrlen _NET_WM_MOVERESIZE_ATOM_NAME)
    _NET_WM_MOVERESIZE_ATOM_NAME
  match xs.internAtomReply _NET_WM_MOVERESIZE_ATOM_NAME with
  | none => do
      Q_ASSERT cfg false
      -- reply->atom with a null reply
      Run.fail .crash
  | some atom => do
      Q_ASSERT cfg (atom != 0)
      pure atom

/-- The client message that `doStartSystemMoveResize` fills in after zeroing
the structure. -/
def moveResizeMessage (netMoveResize windowId : Nat) (globalPos : QPoint)
    (edges : Int) : xcb_client_message_event_t :=
  { response_type := XCB_CLIENT_MESSAGE
    format := 32
    sequence := 0
    window := windowId % 4294967296
    type := netMoveResize
    data32 := [toUInt32 globalPos.x, toUInt32 globalPos.y, toUInt32 edges,
      XCB_BUTTON_INDEX_1, 0] }

/-- The function `doStartSystemMoveResize`. The function-local static
`netMoveResize` is passed in (`none` before its initialisation) and its
value after the call is the returned value. -/
def doStartSystemMoveResize (cfg : BuildConfig) (st : GuiState) (xs : XServer)
    (netMoveResize : Option Nat) (windowId : Nat) (globalPos : QPoint)
    (edges : Int) : Run (Option Nat) := do
  Q_ASSERT cfg (windowId != 0)
  Q_ASSERT cfg (decide (edges ≥ 0))
  if windowId = 0 ∨ edges < 0 then
    pure netMoveResize
  else
    let connection := x11_connection cfg st
    Q_ASSERT cfg (connection != 0)
    let atom ← match netMoveResize with
      | some atom => pure atom
      | none => netMoveResize_init cfg xs connection
    let rootWindow := x11_appRootWindow cfg st (x11_appScreen cfg st)
    Q_ASSERT cfg (rootWindow != 0)
    let xev := moveResizeMessage atom windowId globalPos edges
    -- First we need to ungrab the pointer that may have been
    -- automatically grabbed by Qt on ButtonPressEvent.
    xcb_ungrab_pointer connection (x11_appTime cfg st)
    xcb_send_event connection false rootWindow _NET_WM_SENDEVENT_MASK
      (.clientMessage xev)
    xcb_flush connection
    pure (some atom)

/-- The enumeration `QColor::Spec`. -/
inductive QColor.Spec where
  | Invalid
  | Rgb
  | Hsv
  | Cmyk
  | Hsl
  | ExtendedRgb
  deriving DecidableEq, Repr

/-- A `QColor`: its colour specification and the five 16-bit components. -/
structure QColor where
  cspec : QColor.Spec
  alpha : Nat
  red : Nat
  green : Nat
  blue : Nat
  pad : Nat
  deriving DecidableEq, Repr

/-- The default-constructed `QColor`, written `{}` in the code: the
specification is `Invalid`, the alpha component is `USHRT_MAX`. -/
def QColor.defaultConstructed : QColor :=
  { cspec := .Invalid, alpha := 65535, red := 0, green := 0, blue := 0, pad := 0 }

/-- The call `QColor::isValid()`. -/
def QColor.isValid (color : QColor) : Bool :=
  color.cspec != .Invalid

/-- The function `Utils::isTitleBarColorized`. -/
def isTitleBarColorized : Bool :=
  -- ### TODO
  false

/-- The function `Utils::getWmThemeColor`. -/
def getWmThemeColor : QColor :=
  -- ### TODO
  QColor.defaultConstructed

/-- The function `Utils::getFrameBorderColor`. The constant
`kDefaultDarkGrayColor` is declared in the global header of the library, not
in this file, and is an argument here. -/
def getFrameBorderColor (kDefaultDarkGrayColor : QColor) (active : Bool) : QColor :=
  if active then getWmThemeColor else kDefaultDarkGrayColor

/-! ## Sample states -/

/-- An environment in which only `GTK_THEME` is set, to `value`. -/
def environWithGtkTheme (value : QString) : String → Option QString :=
  fun name => if name = GTK_THEME_NAME_ENV_VAR then some value else none

/-- An environment with no variable set. -/
def emptyEnviron : String → Option QString :=
  fun _ => none

/-- A release build against Qt 6.0.0. -/
def releaseQt600 : BuildConfig :=
  { QT_VERSION := QT_VERSION_CHECK 6 0 0
    FRAMELESSHELPER_CORE_NO_PRIVATE := false
    assertsEnabled := false
    trapsOverrun := false
    bigEndian := false }

/-- A debug build against Qt 6.0.0. -/
def debugQt600 : BuildConfig :=
  { QT_VERSION := QT_VERSION_CHECK 6 0 0
    FRAMELESSHELPER_CORE_NO_PRIVATE := false
    assertsEnabled := true
    trapsOverrun := false
    bigEndian := false }


/-- A screen of an xcb session. -/
def sampleScreen : QScreen :=
  { id := 1, xcbVirtualDesktopNumber := some 0 }

/-- The native interface of an xcb session. -/
def xcbNativeInterface : QPlatformNativeInterface :=
  { nativeResourceForIntegration := fun r =>
      if r = kconnection then 7 else if r = kdisplay then 9 else 0
    nativeResourceForScreen := fun r _ => if r = krootwindow then 300 else 1000
    x11Application := some { display := 9, connection := 7 } }

/-- A running application on an xcb session with one screen. -/
def xcbSession : GuiState :=
  { qApp := some { platformNativeInterface := some xcbNativeInterface }
    primaryScreen := some sampleScreen
    screens := [sampleScreen]
    cString := fun _ => [] }

/-- No application object at all. -/
def noApplication : GuiState :=
  { qApp := none, primaryScreen := none, screens := [], cString := fun _ => [] }

/-- An X server that answers every atom request with atom 400. -/
def sampleXServer : XServer :=
  { internAtomReply := fun _ => some 400 }

/-- A desktop with `GTK_THEME` set to `theme` and the given GTK settings. -/
def desktopWithGtkTheme (theme : QString) (settings : Option GtkSettings) : DesktopState :=
  { environ := environWithGtkTheme theme, gtkSettings := settings }

/-- A desktop with no environment variable and the given GTK settings. -/
def desktopWithoutGtkTheme (settings : Option GtkSettings) : DesktopState :=
  { environ := emptyEnviron, gtkSettings := settings }

/-- GTK settings that prefer the dark variant of a theme called "Adwaita". -/
def adwaitaPreferDark : GtkSettings :=
  { gtk_application_prefer_dark_theme := true, gtk_theme_name := some "Adwaita".data }

/-- A running xcb application that has lost all its screens. -/
def xcbSessionWithoutScreens : GuiState :=
  { qApp := some { platformNativeInterface := some xcbNativeInterface }
    primaryScreen := none
    screens := []
    cString := fun _ => [] }

/-- A native interface that knows no X11 resource and is not a `QX11Application`. -/
def nonXcbNativeInterface : QPlatformNativeInterface :=
  { nativeResourceForIntegration := fun _ => 0
    nativeResourceForScreen := fun _ _ => 0
    x11Application := none }

/-- A running application on a platform that is not xcb. -/
def nonXcbSession : GuiState :=
  { qApp := some { platformNativeInterface := some nonXcbNativeInterface }
    primaryScreen := some sampleScreen
    screens := [sampleScreen]
    cString := fun _ => [] }

/-- A release build against Qt 5.14.0. -/
def releaseQt5140 : BuildConfig :=
  { QT_VERSION := QT_VERSION_CHECK 5 14 0
    FRAMELESSHELPER_CORE_NO_PRIVATE := false
    assertsEnabled := false
    trapsOverrun := false
    bigEndian := false }

/-- A debug build against Qt 5.14.0. -/
def debugQt5140 : BuildConfig :=
  { QT_VERSION := QT_VERSION_CHECK 5 14 0
    FRAMELESSHELPER_CORE_NO_PRIVATE := false
    assertsEnabled := true
    trapsOverrun := false
    bigEndian := false }

/-- A release build against Qt 6.0.0 that guards the stack. -/
def hardenedQt600 : BuildConfig :=
  { QT_VERSION := QT_VERSION_CHECK 6 0 0
    FRAMELESSHELPER_CORE_NO_PRIVATE := false
    assertsEnabled := false
    trapsOverrun := true
    bigEndian := false }

/-- A release build against Qt 6.0.0 for a big-endian target. -/
def bigEndianQt600 : BuildConfig :=
  { QT_VERSION := QT_VERSION_CHECK 6 0 0
    FRAMELESSHELPER_CORE_NO_PRIVATE := false
    assertsEnabled := false
    trapsOverrun := false
    bigEndian := true }

/-- The requests of `doStartSystemMoveResize` once the atom is known: the
pointer ungrab with the application time, the client message to the root
window, the flush. -/
def moveResizeRequests (cfg : BuildConfig) (st : GuiState) (atom windowId : Nat)
    (globalPos : QPoint) (edges : Int) : List Action :=
  [ .xcb_ungrab_pointer (x11_connection cfg st) (x11_appTime cfg st),
    .xcb_send_event (x11_connection cfg st) false
      (x11_appRootWindow cfg st (x11_appScreen cfg st)) _NET_WM_SENDEVENT_MASK
      (.clientMessage (moveResizeMessage atom windowId globalPos edges)),
    .xcb_flush (x11_connection cfg st) ]

/-- The atom request that precedes them on the call that initialises the
static `netMoveResize`. -/
def internAtomRequests (cfg : BuildConfig) (st : GuiState) (netMoveResize : Option Nat) :
    List Action :=
  match netMoveResize with
  | some _ => []
  | none =>
      [ .xcb_intern_atom (x11_connection cfg st) false
          (qstrlen _NET_WM_MOVERESIZE_ATOM_NAME) _NET_WM_MOVERESIZE_ATOM_NAME ]

/-- The interned `_NET_WM_MOVERESIZE` atom: the value of the static when it is
initialised, and otherwise the atom of the reply of the X server. -/
def InternedAtom (xs : XServer) (netMoveResize : Option Nat) (atom : Nat) : Prop :=
  netMoveResize = some atom ∨
    (netMoveResize = none ∧ xs.internAtomReply _NET_WM_MOVERESIZE_ATOM_NAME = some atom)

/-- The X11 session can carry a request of this file: there is a connection,
and the root window is not 0 where an assertion demands it. -/
def X11Ready (cfg : BuildConfig) (st : GuiState) : Prop :=
  x11_connection cfg st ≠ 0 ∧
    (cfg.assertsEnabled = true → x11_appRootWindow cfg st (x11_appScreen cfg st) ≠ 0)

/-- The atom can be had: it is interned, and not 0 where the initialiser of
the static asserts so. -/
def AtomReady (cfg : BuildConfig) (xs : XServer) (netMoveResize : Option Nat)
    (atom : Nat) : Prop :=
  InternedAtom xs netMoveResize atom ∧
    (netMoveResize = none → cfg.assertsEnabled = true → atom ≠ 0)

/-- The words "the sequence of requests contains the pointer ungrab (with the
application time) before the client message sent to the root window with the
event mask SUBSTRUCTURE_REDIRECT | SUBSTRUCTURE_NOTIFY and propagate = false,
and the flush comes last". -/
def UngrabsBeforeSending (trace : List Action) (c time root : Nat) : Prop :=
  (∃ pre mid post ev,
    trace = pre ++ [Action.xcb_ungrab_pointer c time] ++ mid ++
      [Action.xcb_send_event c false root
        (XCB_EVENT_MASK_SUBSTRUCTURE_REDIRECT ||| XCB_EVENT_MASK_SUBSTRUCTURE_NOTIFY)
        (.clientMessage ev)] ++ post) ∧
  trace.getLast? = some (Action.xcb_flush c)

/-- The client messages sent in a trace, in order. -/
def sentClientMessages : List Action → List xcb_client_message_event_t
  | [] => []
  | .xcb_send_event _ _ _ _ (.clientMessage ev) :: rest => ev :: sentClientMessages rest
  | _ :: rest => sentClientMessages rest

/-- The virtual desktop number that `x11_findScreenForVirtualDesktop` sees on
a screen: that of its xcb handle from Qt 6 on (none when the handle is not an
xcb screen), and the result of the Qt 5 platform function before. -/
def virtualDesktopNumberOf (cfg : BuildConfig) (screen : QScreen) : Option Int :=
  if cfg.QT_VERSION ≥ QT_VERSION_CHECK 6 0 0 then screen.xcbVirtualDesktopNumber
  else some (QXcbScreenFunctions_virtualDesktopNumber screen)

/-- The direction codes of the EWMH `_NET_WM_MOVERESIZE` message for the
eight edge sets without opposite edges, from the four edge bits in the order
top, bottom, left, right; `-1` for any other combination. -/
def ewmhDirection : Bool → Bool → Bool → Bool → Int
  | true, false, true, false => 0
  | true, false, false, false => 1
  | true, false, false, true => 2
  | false, false, false, true => 3
  | false, true, false, true => 4
  | false, true, false, false => 5
  | false, true, true, false => 6
  | false, false, true, false => 7
  | _, _, _, _ => -1

/-! ## Properties of the string search -/

theorem matchesAt_iff (key : Char → Char) (hay needle : QString) :
    matchesAt key hay needle = true ↔
      ∃ mid post, hay = mid ++ post ∧ mid.map key = needle.map key := by
  unfold matchesAt
  simp only [beq_iff_eq]
  constructor
  · intro h
    exact ⟨hay.take needle.length, hay.drop needle.length,
      (List.take_append_drop _ _).symm, h⟩
  · rintro ⟨mid, post, rfl, h⟩
    have hlen : mid.length = needle.length := by
      have := congrArg List.length h
      simpa using this
    rw [← hlen, List.take_left]
    exact h

theorem findString_isSome_iff (key : Char → Char) (hay needle : QString) (i : Nat) :
    (findString key hay needle i).isSome = true ↔
      ∃ pre mid post, hay = pre ++ mid ++ post ∧ mid.map key = needle.map key := by
  induction hay generalizing i with
  | nil =>
      unfold findString
      by_cases hm : matchesAt key [] needle = true
      · simp only [hm, if_true, Option.isSome_some, true_iff]
        obtain ⟨mid, post, h1, h2⟩ := (matchesAt_iff key [] needle).1 hm
        exact ⟨[], mid, post, by simpa using h1, h2⟩
      · simp only [hm, Bool.false_eq_true, if_false, Option.isSome_none, false_iff]
        rintro ⟨pre, mid, post, h1, h2⟩
        apply hm
        apply (matchesAt_iff key [] needle).2
        have h3 : pre = [] ∧ mid = [] ∧ post = [] := by
          have := h1.symm
          simp only [List.append_eq_nil] at this
          exact ⟨this.1.1, this.1.2, this.2⟩
        exact ⟨mid, post, by simp [h3.2.1, h3.2.2], h2⟩
  | cons c cs ih =>
      unfold findString
      by_cases hm : matchesAt key (c :: cs) needle = true
      · simp only [hm, if_true, Option.isSome_some, true_iff]
        obtain ⟨mid, post, h1, h2⟩ := (matchesAt_iff key (c :: cs) needle).1 hm
        exact ⟨[], mid, post, by simpa using h1, h2⟩
      · simp only [hm, Bool.false_eq_true, if_false]
        rw [ih (i + 1)]
        constructor
        · rintro ⟨pre, mid, post, h1, h2⟩
          exact ⟨c :: pre, mid, post, by simp [h1], h2⟩
        · rintro ⟨pre, mid, post, h1, h2⟩
          cases pre with
          | nil =>
              exfalso
              apply hm
              exact (matchesAt_iff key (c :: cs) needle).2 ⟨mid, post, by simpa using h1, h2⟩
          | cons p ps =>
              simp only [List.cons_append, List.cons.injEq] at h1
              exact ⟨ps, mid, post, h1.2, h2⟩

theorem contains_caseInsensitive_iff (fold : Char → Char) (hay needle : QString) :
    QString.contains fold hay needle .CaseInsensitive = true ↔
      ContainsIgnoringCase fold hay needle := by
  unfold QString.contains ContainsIgnoringCase comparisonKey
  exact findString_isSome_iff fold hay needle 0

theorem isEmpty_eq_false_iff (s : QString) : QString.isEmpty s = false ↔ s ≠ [] := by
  cases s <;> simp [QString.isEmpty]


theorem not_containsIgnoringCase_nil (fold : Char → Char) :
    ¬ ContainsIgnoringCase fold [] kdark := by
  rintro ⟨pre, mid, post, h1, h2⟩
  have h3 := h1.symm
  simp only [List.append_eq_nil] at h3
  rw [h3.1.2] at h2
  have := congrArg List.length h2
  simp [kdark] at this

theorem contains_nil_dark (fold : Char → Char) :
    QString.contains fold [] kdark .CaseInsensitive = false := by
  cases hcc : QString.contains fold [] kdark .CaseInsensitive
  · rfl
  · exact absurd ((contains_caseInsensitive_iff fold [] kdark).1 hcc)
      (not_containsIgnoringCase_nil fold)

theorem gtkSetting_bool_of_settings (cfg : BuildConfig) (st : DesktopState)
    (s : GtkSettings) (hs : st.gtkSettings = some s) :
    gtkSetting_bool cfg st (some GTK_THEME_PREFER_DARK_PROP) =
      if cfg.trapsOverrun then .aborted .overrun
      else .returned (!cfg.bigEndian && s.gtk_application_prefer_dark_theme) := by
  cases ht : cfg.trapsOverrun <;> cases hb : cfg.bigEndian <;>
    cases hp : s.gtk_application_prefer_dark_theme <;>
    simp [gtkSetting_bool, hs, g_object_get_bool, gbooleanBytes, sizeof_bool,
      StoredBool.value, ht, hb, hp]

theorem shouldAppsUseDarkMode_linux_of_settings (cfg : BuildConfig) (fold : Char → Char)
    (st : DesktopState) (s : GtkSettings)
    (hempty : QString.isEmpty (qEnvironmentVariable st GTK_THEME_NAME_ENV_VAR) = true)
    (hs : st.gtkSettings = some s) :
    shouldAppsUseDarkMode_linux cfg fold st =
      if cfg.trapsOverrun then .aborted .overrun
      else .returned ((!cfg.bigEndian && s.gtk_application_prefer_dark_theme) ||
        QString.contains fold (QUtf8String s.gtk_theme_name) kdark .CaseInsensitive) := by
  have hprefer := gtkSetting_bool_of_settings cfg st s hs
  have hname : gtkSetting cfg st (some GTK_THEME_NAME_PROP) =
      .returned (QUtf8String s.gtk_theme_name) := by
    simp [gtkSetting, gtkSetting_gchararray, hs, g_object_get_gchararray]
  unfold shouldAppsUseDarkMode_linux
  simp only [hempty, Bool.not_true, Bool.false_eq_true, if_false, hprefer, hname]
  cases ht : cfg.trapsOverrun
  · simp only [Bool.false_eq_true, if_false]
    cases hp : (!cfg.bigEndian && s.gtk_application_prefer_dark_theme)
    · cases hn : QString.isEmpty (QUtf8String s.gtk_theme_name)
      · simp
      · have hnil : QUtf8String s.gtk_theme_name = [] := by
          cases hq : QUtf8String s.gtk_theme_name with
          | nil => rfl
          | cons c cs => simp [hq, QString.isEmpty] at hn
        simp [hnil, contains_nil_dark]
    · simp
  · simp

/-! ## Theme detection -/

/-- C1: when `GTK_THEME` has a non-empty value, `shouldAppsUseDarkMode_linux`
returns, and returns true exactly when that value contains "dark" compared
case-insensitively; the GTK settings (whatever they are, present or not) do
not change the outcome. -/
theorem gtk_theme_env_overrides_settings (cfg : BuildConfig) (fold : Char → Char)
    (st : DesktopState) (v : QString)
    (henv : st.environ GTK_THEME_NAME_ENV_VAR = some v) (hv : v ≠ []) :
    (∃ b, shouldAppsUseDarkMode_linux cfg fold st = .returned b ∧
      (b = true ↔ ContainsIgnoringCase fold v kdark)) ∧
    (∀ settings : Option GtkSettings,
      shouldAppsUseDarkMode_linux cfg fold { st with gtkSettings := settings } =
        shouldAppsUseDarkMode_linux cfg fold st) := by
  have hne : QString.isEmpty v = false := (isEmpty_eq_false_iff v).2 hv
  constructor
  · refine ⟨QString.contains fold v kdark .CaseInsensitive, ?_,
      contains_caseInsensitive_iff fold v kdark⟩
    simp [shouldAppsUseDarkMode_linux, qEnvironmentVariable, henv, hne]
  · intro settings
    simp [shouldAppsUseDarkMode_linux, qEnvironmentVariable, henv, hne]

/-- Witness of C1: `GTK_THEME=Adwaita` gives light although the GTK settings
prefer dark, and `GTK_THEME=Adwaita:dark` gives dark. -/
theorem gtk_theme_env_overrides_settings_witness :
    (desktopWithGtkTheme "Adwaita".data (some adwaitaPreferDark)).environ
        GTK_THEME_NAME_ENV_VAR = some "Adwaita".data ∧
    "Adwaita".data ≠ [] ∧
    ((∃ b, shouldAppsUseDarkMode_linux releaseQt600 Char.toLower
          (desktopWithGtkTheme "Adwaita".data (some adwaitaPreferDark)) = .returned b ∧
        (b = true ↔ ContainsIgnoringCase Char.toLower "Adwaita".data kdark)) ∧
      (∀ settings : Option GtkSettings,
        shouldAppsUseDarkMode_linux releaseQt600 Char.toLower
            { desktopWithGtkTheme "Adwaita".data (some adwaitaPreferDark) with
              gtkSettings := settings } =
          shouldAppsUseDarkMode_linux releaseQt600 Char.toLower
            (desktopWithGtkTheme "Adwaita".data (some adwaitaPreferDark)))) ∧
    shouldAppsUseDarkMode_linux releaseQt600 Char.toLower
        (desktopWithGtkTheme "Adwaita".data (some adwaitaPreferDark)) = .returned false ∧
    shouldAppsUseDarkMode_linux releaseQt600 Char.toLower
        (desktopWithGtkTheme "Adwaita:dark".data none) = .returned true :=
  ⟨by decide, by decide,
    gtk_theme_env_overrides_settings releaseQt600 Char.toLower
      (desktopWithGtkTheme "Adwaita".data (some adwaitaPreferDark)) "Adwaita".data
      (by decide) (by decide),
    by decide, by decide⟩


/-- C2, evaluated on the code: with `GTK_THEME` unset, `gtkSetting<bool>` has
`g_object_get` store the four bytes of a `gboolean` into its one-byte `bool`,
three of them past the end of the object, whatever the settings are. With the
settings preferring dark and the theme "Adwaita", where the property stated
for the function asks for true: a build that guards the stack stops instead of
returning, a big-endian build returns false, and only a little-endian build
that does not notice the overrun returns true. In general the function stops
in a guarding build and otherwise returns what the byte that landed in the
`bool` gives, or-ed with the result of the search in the theme name. -/
theorem gtk_prefer_dark_read_overruns :
    sizeof_bool = 1 ∧ sizeof_gboolean = 4 ∧
    (∀ (bigEndian : Bool) (s : GtkSettings),
      (g_object_get_bool bigEndian s GTK_THEME_PREFER_DARK_PROP false).object.length =
          sizeof_bool ∧
        (g_object_get_bool bigEndian s GTK_THEME_PREFER_DARK_PROP false).overrun.length =
          sizeof_gboolean - sizeof_bool) ∧
    (∀ (cfg : BuildConfig) (fold : Char → Char) (s : GtkSettings),
      shouldAppsUseDarkMode_linux cfg fold (desktopWithoutGtkTheme (some s)) =
        if cfg.trapsOverrun then .aborted .overrun
        else .returned ((!cfg.bigEndian && s.gtk_application_prefer_dark_theme) ||
          QString.contains fold (QUtf8String s.gtk_theme_name) kdark .CaseInsensitive)) ∧
    (desktopWithoutGtkTheme (some adwaitaPreferDark)).environ GTK_THEME_NAME_ENV_VAR = none ∧
    adwaitaPreferDark.gtk_application_prefer_dark_theme = true ∧
    shouldAppsUseDarkMode_linux hardenedQt600 Char.toLower
      (desktopWithoutGtkTheme (some adwaitaPreferDark)) = .aborted .overrun ∧
    shouldAppsUseDarkMode_linux bigEndianQt600 Char.toLower
      (desktopWithoutGtkTheme (some adwaitaPreferDark)) = .returned false ∧
    shouldAppsUseDarkMode_linux releaseQt600 Char.toLower
      (desktopWithoutGtkTheme (some adwaitaPreferDark)) = .returned true := by
  refine ⟨rfl, rfl, ?_, ?_, by decide, by decide, by decide, by decide, by decide⟩
  · intro bigEndian s
    cases bigEndian <;>
      simp [g_object_get_bool, gbooleanBytes, sizeof_bool, sizeof_gboolean]
  · intro cfg fold s
    exact shouldAppsUseDarkMode_linux_of_settings cfg fold (desktopWithoutGtkTheme (some s)) s
      (by simp [qEnvironmentVariable, desktopWithoutGtkTheme, emptyEnviron, QString.isEmpty])
      rfl

/-- C3: `getSystemTheme` returns `Dark` exactly when `shouldAppsUseDarkMode()`
is true and `Light` exactly when it is false, and never any other value. -/
theorem getSystemTheme_dark_or_light (shouldAppsUseDarkMode : Bool) :
    (getSystemTheme shouldAppsUseDarkMode = SystemTheme.Dark ↔
      shouldAppsUseDarkMode = true) ∧
    (getSystemTheme shouldAppsUseDarkMode = SystemTheme.Light ↔
      shouldAppsUseDarkMode = false) ∧
    getSystemTheme shouldAppsUseDarkMode ≠ SystemTheme.Unknown ∧
    getSystemTheme shouldAppsUseDarkMode ≠ SystemTheme.HighContrast := by
  cases shouldAppsUseDarkMode <;> simp [getSystemTheme]

/-- C4, as stated, fails: in a build with `Q_ASSERT` compiled in, with no
default settings object and no `GTK_THEME`, `gtkSetting<bool>` does not return
`false` and `shouldAppsUseDarkMode_linux` does not return `false`: both stop at
the assertion. -/
theorem gtkSetting_default_fails_with_assertions :
    (desktopWithoutGtkTheme none).gtkSettings = none ∧
    qEnvironmentVariable (desktopWithoutGtkTheme none) GTK_THEME_NAME_ENV_VAR = [] ∧
    gtkSetting_bool debugQt600 (desktopWithoutGtkTheme none)
        (some GTK_THEME_PREFER_DARK_PROP) ≠ .returned false ∧
    gtkSetting debugQt600 (desktopWithoutGtkTheme none)
        (some GTK_THEME_NAME_PROP) ≠ .returned [] ∧
    shouldAppsUseDarkMode_linux debugQt600 Char.toLower (desktopWithoutGtkTheme none) ≠
      .returned false ∧
    shouldAppsUseDarkMode_linux debugQt600 Char.toLower (desktopWithoutGtkTheme none) =
      .aborted .assertion := by
  decide

/-- C4, amended: when GTK has no default settings object or the property name
is null, then in a build with `Q_ASSERT` compiled out `gtkSetting<T>` returns
the value-initialised `T` and the string overload returns the empty string, so
that with `GTK_THEME` unset or empty and no settings object
`shouldAppsUseDarkMode_linux` returns false; in a build with `Q_ASSERT`
compiled in the same calls stop at the failed assertion. -/
theorem gtkSetting_default_on_failure (cfg : BuildConfig) (fold : Char → Char)
    (st : DesktopState) (propertyName : Option String)
    (hmissing : st.gtkSettings = none ∨ propertyName = none) :
    (cfg.assertsEnabled = false →
      gtkSetting_bool cfg st propertyName = .returned false ∧
      gtkSetting_gchararray cfg st propertyName = .returned none ∧
      gtkSetting cfg st propertyName = .returned [] ∧
      (st.gtkSettings = none →
        qEnvironmentVariable st GTK_THEME_NAME_ENV_VAR = [] →
        shouldAppsUseDarkMode_linux cfg fold st = .returned false)) ∧
    (cfg.assertsEnabled = true →
      gtkSetting_bool cfg st propertyName = .aborted .assertion ∧
      gtkSetting_gchararray cfg st propertyName = .aborted .assertion ∧
      gtkSetting cfg st propertyName = .aborted .assertion ∧
      (st.gtkSettings = none →
        qEnvironmentVariable st GTK_THEME_NAME_ENV_VAR = [] →
        shouldAppsUseDarkMode_linux cfg fold st = .aborted .assertion)) := by
  constructor
  · intro ha
    refine ⟨?_, ?_, ?_, ?_⟩
    · rcases hmissing with h | h
      · cases propertyName <;> simp [gtkSetting_bool, h, ha]
      · simp [gtkSetting_bool, h, ha]
    · rcases hmissing with h | h
      · cases propertyName <;> simp [gtkSetting_gchararray, h, ha]
      · simp [gtkSetting_gchararray, h, ha]
    · rcases hmissing with h | h
      · cases propertyName <;> simp [gtkSetting, gtkSetting_gchararray, h, ha, QUtf8String]
      · simp [gtkSetting, h, ha]
    · intro hnone henv
      simp [shouldAppsUseDarkMode_linux, henv, QString.isEmpty, gtkSetting_bool,
        gtkSetting, gtkSetting_gchararray, hnone, ha, QUtf8String]
  · intro ha
    refine ⟨?_, ?_, ?_, ?_⟩
    · rcases hmissing with h | h
      · cases propertyName <;> simp [gtkSetting_bool, h, ha]
      · simp [gtkSetting_bool, h, ha]
    · rcases hmissing with h | h
      · cases propertyName <;> simp [gtkSetting_gchararray, h, ha]
      · simp [gtkSetting_gchararray, h, ha]
    · rcases hmissing with h | h
      · cases propertyName <;> simp [gtkSetting, gtkSetting_gchararray, h, ha]
      · simp [gtkSetting, h, ha]
    · intro hnone henv
      simp [shouldAppsUseDarkMode_linux, henv, QString.isEmpty, gtkSetting_bool,
        hnone, ha]

/-- Witness of C4, amended: a release build, no settings object, no `GTK_THEME`. -/
theorem gtkSetting_default_on_failure_witness :
    ((desktopWithoutGtkTheme none).gtkSettings = none ∨
      some GTK_THEME_PREFER_DARK_PROP = none) ∧
    releaseQt600.assertsEnabled = false ∧
    gtkSetting_bool releaseQt600 (desktopWithoutGtkTheme none)
      (some GTK_THEME_PREFER_DARK_PROP) = .returned false ∧
    shouldAppsUseDarkMode_linux releaseQt600 Char.toLower (desktopWithoutGtkTheme none) =
      .returned false :=
  ⟨Or.inl (by decide), by decide,
    ((gtkSetting_default_on_failure releaseQt600 Char.toLower (desktopWithoutGtkTheme none)
      (some GTK_THEME_PREFER_DARK_PROP) (Or.inl (by decide))).1 (by decide)).1,
    ((gtkSetting_default_on_failure releaseQt600 Char.toLower (desktopWithoutGtkTheme none)
      (some GTK_THEME_PREFER_DARK_PROP) (Or.inl (by decide))).1 (by decide)).2.2.2
      (by decide) (by decide)⟩


/-! ## Blur behind -/

/-- C6: `isBlurBehindWindowSupported` returns false whether or not the option
`ForceNonNativeBackgroundBlur` is set, on the first call and on every later
call, and `setBlurBehindWindowEnabled` returns false for every window id, blur
mode and colour. -/
theorem blur_behind_not_supported :
    (∀ forced : Bool,
      (isBlurBehindWindowSupported { isSet_ForceNonNativeBackgroundBlur := forced } none).1 =
        false) ∧
    (∀ configs : List FramelessConfig,
      isBlurBehindWindowSupported_calls configs none =
        List.replicate configs.length false) ∧
    (∀ (BlurMode QColor : Type) (windowId : Nat) (mode : BlurMode) (color : QColor),
      setBlurBehindWindowEnabled windowId mode color = false) := by
  refine ⟨?_, ?_, ?_⟩
  · intro forced
    cases forced <;> rfl
  · intro configs
    have hlater : ∀ cs : List FramelessConfig,
        isBlurBehindWindowSupported_calls cs (some false) = List.replicate cs.length false := by
      intro cs
      induction cs with
      | nil => rfl
      | cons c rest ih =>
          simp [isBlurBehindWindowSupported_calls, isBlurBehindWindowSupported, ih,
            List.replicate_succ]
    cases configs with
    | nil => rfl
    | cons c rest =>
        have hinit : isBlurBehindWindowSupported_init c = false := by
          unfold isBlurBehindWindowSupported_init
          split <;> rfl
        simp [isBlurBehindWindowSupported_calls, isBlurBehindWindowSupported, hinit, hlater,
          List.replicate_succ]
  · intros
    rfl

/-! ## Window edges -/

theorem testEdge_two_pow (edges k : Nat) : testEdge edges (2 ^ k) = edges.testBit k := by
  unfold testEdge
  rw [Nat.and_comm, Nat.two_pow_and]
  cases edges.testBit k <;> simp

theorem testBit_withoutEdge (edges j k : Nat) :
    (withoutEdge edges (2 ^ j)).testBit k = (edges.testBit k && !decide (j = k)) := by
  unfold withoutEdge
  rw [Nat.testBit_xor, Nat.testBit_and, Nat.testBit_two_pow]
  cases edges.testBit k <;> cases decide (j = k) <;> rfl

theorem testEdge_TopEdge (edges : Nat) : testEdge edges TopEdge = edges.testBit 0 :=
  testEdge_two_pow edges 0

theorem testEdge_LeftEdge (edges : Nat) : testEdge edges LeftEdge = edges.testBit 1 :=
  testEdge_two_pow edges 1

theorem testEdge_RightEdge (edges : Nat) : testEdge edges RightEdge = edges.testBit 2 :=
  testEdge_two_pow edges 2

theorem testEdge_BottomEdge (edges : Nat) : testEdge edges BottomEdge = edges.testBit 3 :=
  testEdge_two_pow edges 3

theorem qtEdges_eq_ewmhDirection (edges : Nat) :
    qtEdgesToWmMoveOrResizeOperation edges =
      ewmhDirection (edges.testBit 0) (edges.testBit 3 && !edges.testBit 0)
        (edges.testBit 1) (edges.testBit 2 && !edges.testBit 1) := by
  unfold qtEdgesToWmMoveOrResizeOperation
  rw [testEdge_TopEdge, testEdge_LeftEdge, testEdge_RightEdge, testEdge_BottomEdge]
  by_cases h0 : edges = 0
  · subst h0
    simp [ewmhDirection]
  · rw [if_neg h0]
    cases edges.testBit 0 <;> cases edges.testBit 1 <;> cases edges.testBit 2 <;>
      cases edges.testBit 3 <;> rfl

theorem ewmhDirection_range (t b l r : Bool) :
    (ewmhDirection t (b && !t) l (r && !l) = -1 ↔
      t = false ∧ b = false ∧ l = false ∧ r = false) ∧
    (ewmhDirection t (b && !t) l (r && !l) = -1 ∨
      (0 ≤ ewmhDirection t (b && !t) l (r && !l) ∧
        ewmhDirection t (b && !t) l (r && !l) ≤ 7)) := by
  cases t <;> cases b <;> cases l <;> cases r <;> decide

/-- C9: `qtEdgesToWmMoveOrResizeOperation` is the EWMH direction table on
every edge set: `-1` exactly when none of the four edge bits is set, otherwise
a code in `0..7`, never the MOVE code 8; Top has priority over Bottom and Left
over Right, so the value is that of the set with Bottom removed when Top is
present and with Right removed when Left is present. -/
theorem qtEdgesToWmMoveOrResizeOperation_table (edges : Nat) :
    qtEdgesToWmMoveOrResizeOperation edges =
      ewmhDirection (testEdge edges TopEdge)
        (testEdge edges BottomEdge && !testEdge edges TopEdge)
        (testEdge edges LeftEdge)
        (testEdge edges RightEdge && !testEdge edges LeftEdge) ∧
    (qtEdgesToWmMoveOrResizeOperation edges = -1 ↔
      testEdge edges TopEdge = false ∧ testEdge edges BottomEdge = false ∧
        testEdge edges LeftEdge = false ∧ testEdge edges RightEdge = false) ∧
    (qtEdgesToWmMoveOrResizeOperation edges = -1 ∨
      (0 ≤ qtEdgesToWmMoveOrResizeOperation edges ∧
        qtEdgesToWmMoveOrResizeOperation edges ≤ 7)) ∧
    qtEdgesToWmMoveOrResizeOperation edges ≠ _NET_WM_MOVERESIZE_MOVE ∧
    qtEdgesToWmMoveOrResizeOperation
        (if testEdge edges TopEdge then withoutEdge edges BottomEdge else edges) =
      qtEdgesToWmMoveOrResizeOperation edges ∧
    qtEdgesToWmMoveOrResizeOperation
        (if testEdge edges LeftEdge then withoutEdge edges RightEdge else edges) =
      qtEdgesToWmMoveOrResizeOperation edges ∧
    qtEdgesToWmMoveOrResizeOperation (TopEdge ||| LeftEdge) = 0 ∧
    qtEdgesToWmMoveOrResizeOperation TopEdge = 1 ∧
    qtEdgesToWmMoveOrResizeOperation (TopEdge ||| RightEdge) = 2 ∧
    qtEdgesToWmMoveOrResizeOperation RightEdge = 3 ∧
    qtEdgesToWmMoveOrResizeOperation (BottomEdge ||| RightEdge) = 4 ∧
    qtEdgesToWmMoveOrResizeOperation BottomEdge = 5 ∧
    qtEdgesToWmMoveOrResizeOperation (BottomEdge ||| LeftEdge) = 6 ∧
    qtEdgesToWmMoveOrResizeOperation LeftEdge = 7 := by
  have hrange := ewmhDirection_range (edges.testBit 0) (edges.testBit 3)
    (edges.testBit 1) (edges.testBit 2)
  refine ⟨?_, ?_, ?_, ?_, ?_, ?_, by decide, by decide, by decide, by decide, by decide,
    by decide, by decide, by decide⟩
  · rw [qtEdges_eq_ewmhDirection, testEdge_TopEdge, testEdge_LeftEdge, testEdge_RightEdge,
      testEdge_BottomEdge]
  · rw [qtEdges_eq_ewmhDirection, testEdge_TopEdge, testEdge_LeftEdge, testEdge_RightEdge,
      testEdge_BottomEdge]
    exact hrange.1
  · rw [qtEdges_eq_ewmhDirection]
    exact hrange.2
  · rw [qtEdges_eq_ewmhDirection]
    rcases hrange.2 with h | h
    · rw [h]; decide
    · intro h8
      rw [h8] at h
      exact absurd h.2 (by decide)
  · rw [testEdge_TopEdge]
    cases ht : edges.testBit 0
    · simp
    · simp only [if_true]
      rw [qtEdges_eq_ewmhDirection, qtEdges_eq_ewmhDirection]
      have hb : BottomEdge = 2 ^ 3 := rfl
      rw [hb, testBit_withoutEdge, testBit_withoutEdge, testBit_withoutEdge,
        testBit_withoutEdge, ht]
      cases edges.testBit 1 <;> cases edges.testBit 2 <;> cases edges.testBit 3 <;> rfl
  · rw [testEdge_LeftEdge]
    cases hl : edges.testBit 1
    · simp
    · simp only [if_true]
      rw [qtEdges_eq_ewmhDirection, qtEdges_eq_ewmhDirection]
      have hr : RightEdge = 2 ^ 2 := rfl
      rw [hr, testBit_withoutEdge, testBit_withoutEdge, testBit_withoutEdge,
        testBit_withoutEdge, hl]
      cases edges.testBit 0 <;> cases edges.testBit 2 <;> cases edges.testBit 3 <;> rfl


/-! ## The X11 accessors -/

theorem screenIsOnVirtualDesktop_eq_false (cfg : BuildConfig) (screen : QScreen) (n : Int)
    (h : virtualDesktopNumberOf cfg screen ≠ some n) :
    screenIsOnVirtualDesktop cfg screen n = false := by
  unfold virtualDesktopNumberOf at h
  unfold screenIsOnVirtualDesktop
  by_cases hv : cfg.QT_VERSION ≥ QT_VERSION_CHECK 6 0 0
  · rw [if_pos hv] at h ⊢
    cases hx : screen.xcbVirtualDesktopNumber with
    | none => rfl
    | some m =>
        rw [hx] at h
        have hne : m ≠ n := fun e => h (by rw [e])
        simpa using hne
  · rw [if_neg hv] at h ⊢
    have hne : QXcbScreenFunctions_virtualDesktopNumber screen ≠ n := fun e => h (by rw [e])
    simpa using hne

theorem x11_findScreenForVirtualDesktop_eq_none (cfg : BuildConfig) (st : GuiState) (n : Int)
    (hp : cfg.FRAMELESSHELPER_CORE_NO_PRIVATE = false) (hn : n ≠ -1)
    (hnone : ∀ s ∈ st.screens, virtualDesktopNumberOf cfg s ≠ some n) :
    x11_findScreenForVirtualDesktop cfg st n = none := by
  unfold x11_findScreenForVirtualDesktop
  simp only [hp, Bool.false_eq_true, if_false, hn]
  split
  · rfl
  · rw [List.find?_eq_none]
    intro s hs
    simp [screenIsOnVirtualDesktop_eq_false cfg s n (hnone s hs)]

/-- C5: every X11 accessor returns its default when there is no application
instance or no platform native interface (`0`, the empty byte array, or null);
`x11_appRootWindow`, `x11_appTime`, `x11_appUserTime` and `x11_getTimestamp`
also return `0` when the screen they need cannot be resolved: no primary screen
(for `x11_appRootWindow`, with the argument `-1`), or, for `x11_appRootWindow`
with another argument, no screen whose virtual desktop number is the argument. -/
theorem x11_accessors_default (cfg : BuildConfig) (st : GuiState) :
    ((st.qApp = none ∨ ∃ app, st.qApp = some app ∧ app.platformNativeInterface = none) →
      (∀ screen : Int, x11_appRootWindow cfg st screen = 0) ∧
      x11_appScreen cfg st = 0 ∧
      x11_appTime cfg st = 0 ∧
      x11_appUserTime cfg st = 0 ∧
      x11_getTimestamp cfg st = 0 ∧
      x11_nextStartupId cfg st = [] ∧
      x11_display cfg st = 0 ∧
      x11_connection cfg st = 0) ∧
    (st.primaryScreen = none →
      x11_appRootWindow cfg st (-1) = 0 ∧
      x11_appTime cfg st = 0 ∧
      x11_appUserTime cfg st = 0 ∧
      x11_getTimestamp cfg st = 0) ∧
    (∀ screen : Int, screen ≠ -1 →
      (∀ s ∈ st.screens, virtualDesktopNumberOf cfg s ≠ some screen) →
      x11_appRootWindow cfg st screen = 0) := by
  refine ⟨?_, ?_, ?_⟩
  · intro h
    rcases h with h | ⟨app, h, hn⟩
    · refine ⟨fun screen => ?_, ?_, ?_, ?_, ?_, ?_, ?_, ?_⟩ <;>
        simp [x11_appRootWindow, x11_appScreen, x11_appTime, x11_appUserTime,
          x11_getTimestamp, x11_nextStartupId, x11_display, x11_connection, h]
    · refine ⟨fun screen => ?_, ?_, ?_, ?_, ?_, ?_, ?_, ?_⟩ <;>
        simp [x11_appRootWindow, x11_appScreen, x11_appTime, x11_appUserTime,
          x11_getTimestamp, x11_nextStartupId, x11_display, x11_connection, h, hn,
          QGuiApplication.nativeInterface_QX11Application]
  · intro h
    refine ⟨?_, ?_, ?_, ?_⟩
    · unfold x11_appRootWindow
      simp only [if_true, h]
      split
      · rfl
      · split
        · rfl
        · split <;> rfl
    · unfold x11_appTime
      simp only [h]
      split
      · rfl
      · split
        · rfl
        · split <;> rfl
    · unfold x11_appUserTime
      simp only [h]
      split
      · rfl
      · split
        · rfl
        · split <;> rfl
    · unfold x11_getTimestamp
      simp only [h]
      split
      · rfl
      · split
        · rfl
        · split <;> rfl
  · intro screen hne hnone
    unfold x11_appRootWindow
    cases hp : cfg.FRAMELESSHELPER_CORE_NO_PRIVATE
    · simp only [Bool.false_eq_true, if_false, hne,
        x11_findScreenForVirtualDesktop_eq_none cfg st screen hp hne hnone]
      split
      · rfl
      · split <;> rfl
    · simp

/-- Witness of C5: no application object; an application without screens;
an xcb session asked for virtual desktop 5, which no screen is on. -/
theorem x11_accessors_default_witness :
    (noApplication.qApp = none ∧
      x11_appRootWindow debugQt600 noApplication (-1) = 0 ∧
      x11_nextStartupId debugQt600 noApplication = [] ∧
      x11_connection debugQt600 noApplication = 0) ∧
    (xcbSessionWithoutScreens.primaryScreen = none ∧
      x11_appTime debugQt600 xcbSessionWithoutScreens = 0) ∧
    ((5 : Int) ≠ -1 ∧
      (∀ s ∈ xcbSession.screens, virtualDesktopNumberOf debugQt600 s ≠ some 5) ∧
      x11_appRootWindow debugQt600 xcbSession 5 = 0 ∧
      x11_appRootWindow debugQt600 xcbSession 0 = 300) :=
  ⟨⟨rfl,
      ((x11_accessors_default debugQt600 noApplication).1 (Or.inl rfl)).1 (-1),
      ((x11_accessors_default debugQt600 noApplication).1 (Or.inl rfl)).2.2.2.2.2.1,
      ((x11_accessors_default debugQt600 noApplication).1 (Or.inl rfl)).2.2.2.2.2.2.2⟩,
    ⟨rfl, ((x11_accessors_default debugQt600 xcbSessionWithoutScreens).2.1 rfl).2.1⟩,
    ⟨by decide, by decide,
      (x11_accessors_default debugQt600 xcbSession).2.2 5 (by decide) (by decide),
      by decide⟩⟩


/-! ## System move and resize -/

theorem Run.bind_eq {α β : Type} (x : Run α) (f : α → Run β) :
    (x >>= f) = Run.andThen x f := rfl

theorem Run.pure_eq {α : Type} (a : α) : (pure a : Run α) = Run.ret a := rfl

theorem doStartSystemMoveResize_run (cfg : BuildConfig) (st : GuiState) (xs : XServer)
    (netMoveResize : Option Nat) (windowId : Nat) (globalPos : QPoint) (edges : Int)
    (atom : Nat) (hw : windowId ≠ 0) (he : 0 ≤ edges) (hx : X11Ready cfg st)
    (ha : AtomReady cfg xs netMoveResize atom) :
    (doStartSystemMoveResize cfg st xs netMoveResize windowId globalPos edges).trace =
        internAtomRequests cfg st netMoveResize ++
          moveResizeRequests cfg st atom windowId globalPos edges ∧
    (doStartSystemMoveResize cfg st xs netMoveResize windowId globalPos edges).outcome =
        .returned (some atom) := by
  obtain ⟨hc, hroot⟩ := hx
  obtain ⟨hatom, hnz⟩ := ha
  have he2 : ¬ edges < 0 := not_lt.mpr he
  rcases hatom with h | ⟨h, hr⟩
  · subst h
    cases hasserts : cfg.assertsEnabled
    · simp [doStartSystemMoveResize, Run.bind_eq, Run.pure_eq, Run.andThen, Run.ret, Run.fail,
        Run.emit, Q_ASSERT, xcb_ungrab_pointer, xcb_send_event, xcb_flush, hw, he, he2, hc,
        hasserts, internAtomRequests, moveResizeRequests]
    · have hroot2 := hroot hasserts
      simp [doStartSystemMoveResize, Run.bind_eq, Run.pure_eq, Run.andThen, Run.ret, Run.fail,
        Run.emit, Q_ASSERT, xcb_ungrab_pointer, xcb_send_event, xcb_flush, hw, he, he2, hc,
        hasserts, internAtomRequests, moveResizeRequests, hroot2]
  · subst h
    cases hasserts : cfg.assertsEnabled
    · simp [doStartSystemMoveResize, Run.bind_eq, Run.pure_eq, Run.andThen, Run.ret, Run.fail,
        Run.emit, Q_ASSERT, xcb_ungrab_pointer, xcb_send_event, xcb_flush, hw, he, he2, hc,
        hasserts, internAtomRequests, moveResizeRequests, netMoveResize_init,
        xcb_intern_atom, hr]
    · have hroot2 := hroot hasserts
      have hnz2 := hnz rfl hasserts
      simp [doStartSystemMoveResize, Run.bind_eq, Run.pure_eq, Run.andThen, Run.ret, Run.fail,
        Run.emit, Q_ASSERT, xcb_ungrab_pointer, xcb_send_event, xcb_flush, hw, he, he2, hc,
        hasserts, internAtomRequests, moveResizeRequests, netMoveResize_init,
        xcb_intern_atom, hr, hroot2, hnz2]

theorem doStartSystemMoveResize_guard (cfg : BuildConfig) (st : GuiState) (xs : XServer)
    (netMoveResize : Option Nat) (windowId : Nat) (globalPos : QPoint) (edges : Int)
    (h : windowId = 0 ∨ edges < 0) :
    (doStartSystemMoveResize cfg st xs netMoveResize windowId globalPos edges).trace = [] := by
  cases hasserts : cfg.assertsEnabled <;> by_cases hw : windowId = 0 <;>
    by_cases he : edges < 0 <;>
    simp_all [doStartSystemMoveResize, Run.bind_eq, Run.pure_eq, Run.andThen, Run.ret,
      Run.fail, Q_ASSERT]


theorem doStartSystemMoveResize_sent (cfg : BuildConfig) (st : GuiState) (xs : XServer)
    (netMoveResize : Option Nat) (windowId : Nat) (globalPos : QPoint) (edges : Int) :
    sentClientMessages
        (doStartSystemMoveResize cfg st xs netMoveResize windowId globalPos edges).trace = [] ∨
      ∃ atom, InternedAtom xs netMoveResize atom ∧
        sentClientMessages
            (doStartSystemMoveResize cfg st xs netMoveResize windowId globalPos edges).trace =
          [moveResizeMessage atom windowId globalPos edges] := by
  by_cases hg : windowId = 0 ∨ edges < 0
  · left
    rw [doStartSystemMoveResize_guard cfg st xs netMoveResize windowId globalPos edges hg]
    rfl
  · have hw : windowId ≠ 0 := fun h => hg (Or.inl h)
    have he2 : ¬ edges < 0 := fun h => hg (Or.inr h)
    have he : 0 ≤ edges := not_lt.mp he2
    by_cases hc : x11_connection cfg st = 0
    · left
      cases hasserts : cfg.assertsEnabled <;> cases netMoveResize <;>
        simp [doStartSystemMoveResize, Run.bind_eq, Run.pure_eq, Run.andThen, Run.ret,
          Run.fail, Run.emit, Q_ASSERT, xcb_ungrab_pointer, xcb_send_event, xcb_flush, hw, he,
          he2, hc, hasserts, netMoveResize_init, xcb_intern_atom, sentClientMessages]
    · cases hn : netMoveResize with
      | some atom =>
          by_cases hroot : cfg.assertsEnabled = true →
              x11_appRootWindow cfg st (x11_appScreen cfg st) ≠ 0
          · right
            refine ⟨atom, Or.inl rfl, ?_⟩
            rw [(doStartSystemMoveResize_run cfg st xs (some atom) windowId globalPos edges atom
              hw he ⟨hc, hroot⟩ ⟨Or.inl rfl, fun h => by cases h⟩).1]
            simp [internAtomRequests, moveResizeRequests, sentClientMessages]
          · left
            simp only [not_forall, exists_prop, not_not] at hroot
            simp [doStartSystemMoveResize, Run.bind_eq, Run.pure_eq, Run.andThen, Run.ret,
              Run.fail, Q_ASSERT, hw, he, he2, hc, hroot.1, hroot.2, sentClientMessages]
      | none =>
          cases hr : xs.internAtomReply _NET_WM_MOVERESIZE_ATOM_NAME with
          | none =>
              left
              cases hasserts : cfg.assertsEnabled <;>
                simp [doStartSystemMoveResize, Run.bind_eq, Run.pure_eq, Run.andThen, Run.ret,
                  Run.fail, Run.emit, Q_ASSERT, hw, he, he2, hc, hasserts, netMoveResize_init,
                  xcb_intern_atom, hr, sentClientMessages]
          | some atom =>
              by_cases hgood : (cfg.assertsEnabled = true →
                  x11_appRootWindow cfg st (x11_appScreen cfg st) ≠ 0) ∧
                  (cfg.assertsEnabled = true → atom ≠ 0)
              · right
                refine ⟨atom, Or.inr ⟨rfl, hr⟩, ?_⟩
                rw [(doStartSystemMoveResize_run cfg st xs none windowId globalPos edges atom
                  hw he ⟨hc, hgood.1⟩ ⟨Or.inr ⟨rfl, hr⟩, fun _ => hgood.2⟩).1]
                simp [internAtomRequests, moveResizeRequests, sentClientMessages]
              · left
                have hasserts : cfg.assertsEnabled = true := by
                  by_contra h
                  exact hgood ⟨fun h2 => absurd h2 h, fun h2 => absurd h2 h⟩
                by_cases hz : atom = 0
                · simp [doStartSystemMoveResize, Run.bind_eq, Run.pure_eq, Run.andThen,
                    Run.ret, Run.fail, Run.emit, Q_ASSERT, hw, he, he2, hc, hasserts,
                    netMoveResize_init, xcb_intern_atom, hr, hz, sentClientMessages]
                · have hroot : x11_appRootWindow cfg st (x11_appScreen cfg st) = 0 := by
                    by_contra hne
                    exact hgood ⟨fun _ => hne, fun _ => hz⟩
                  simp [doStartSystemMoveResize, Run.bind_eq, Run.pure_eq, Run.andThen,
                    Run.ret, Run.fail, Run.emit, Q_ASSERT, hw, he, he2, hc, hasserts,
                    netMoveResize_init, xcb_intern_atom, hr, hz, hroot, sentClientMessages]

theorem toUInt32_of_isCInt (e : Int) (he : 0 ≤ e) (hint : IsCInt e) :
    toUInt32 e = e.toNat := by
  unfold toUInt32
  rw [Int.emod_eq_of_lt he (by unfold IsCInt at hint; omega)]

theorem not_ungrabsBeforeSending_nil (c time root : Nat) :
    ¬ UngrabsBeforeSending [] c time root := by
  rintro ⟨_, h⟩
  simp at h

/-- C7, as stated, fails: on a session without X connection, with the window
id 77 and the edges code 8, `doStartSystemMoveResize` issues no request at all,
in a build with assertions (it stops at `Q_ASSERT(connection)`) and in one
without (libxcb is handed a null connection); no pointer ungrab comes before a
client message. -/
theorem ungrab_missing_without_connection :
    (77 : Nat) ≠ 0 ∧ (0 : Int) ≤ _NET_WM_MOVERESIZE_MOVE ∧
    (doStartSystemMoveResize debugQt5140 nonXcbSession sampleXServer none 77
      { x := 10, y := 20 } _NET_WM_MOVERESIZE_MOVE).trace = [] ∧
    (doStartSystemMoveResize releaseQt5140 nonXcbSession sampleXServer none 77
      { x := 10, y := 20 } _NET_WM_MOVERESIZE_MOVE).trace = [] ∧
    ¬ UngrabsBeforeSending
      (doStartSystemMoveResize debugQt5140 nonXcbSession sampleXServer none 77
        { x := 10, y := 20 } _NET_WM_MOVERESIZE_MOVE).trace
      (x11_connection debugQt5140 nonXcbSession) (x11_appTime debugQt5140 nonXcbSession)
      (x11_appRootWindow debugQt5140 nonXcbSession (x11_appScreen debugQt5140 nonXcbSession)) ∧
    ¬ UngrabsBeforeSending
      (doStartSystemMoveResize releaseQt5140 nonXcbSession sampleXServer none 77
        { x := 10, y := 20 } _NET_WM_MOVERESIZE_MOVE).trace
      (x11_connection releaseQt5140 nonXcbSession) (x11_appTime releaseQt5140 nonXcbSession)
      (x11_appRootWindow releaseQt5140 nonXcbSession
        (x11_appScreen releaseQt5140 nonXcbSession)) := by
  have hd : (doStartSystemMoveResize debugQt5140 nonXcbSession sampleXServer none 77
      { x := 10, y := 20 } _NET_WM_MOVERESIZE_MOVE).trace = [] := by decide
  have hr : (doStartSystemMoveResize releaseQt5140 nonXcbSession sampleXServer none 77
      { x := 10, y := 20 } _NET_WM_MOVERESIZE_MOVE).trace = [] := by decide
  refine ⟨by decide, by decide, hd, hr, ?_, ?_⟩
  · rw [hd]
    exact not_ungrabsBeforeSending_nil _ _ _
  · rw [hr]
    exact not_ungrabsBeforeSending_nil _ _ _

/-- C7, amended: for every non-zero window id and every edges code `>= 0`,
when `x11_connection()` is not null and the `_NET_WM_MOVERESIZE` atom can be
had (and, in a build with assertions, root window and atom are not 0),
`doStartSystemMoveResize` returns after issuing, in this order, the atom
request (on the call that initialises the static only), the pointer ungrab with
the application time, the client message to the root window with event mask
SUBSTRUCTURE_REDIRECT | SUBSTRUCTURE_NOTIFY and propagate = false, and the
flush; when the window id is 0 or the edges code is negative it issues no
request at all. -/
theorem doStartSystemMoveResize_ungrabs_first (cfg : BuildConfig) (st : GuiState)
    (xs : XServer) (netMoveResize : Option Nat) (windowId : Nat) (globalPos : QPoint)
    (edges : Int) :
    (windowId ≠ 0 → 0 ≤ edges → X11Ready cfg st →
      ∀ atom, AtomReady cfg xs netMoveResize atom →
        (doStartSystemMoveResize cfg st xs netMoveResize windowId globalPos edges).trace =
          internAtomRequests cfg st netMoveResize ++
            moveResizeRequests cfg st atom windowId globalPos edges ∧
        (doStartSystemMoveResize cfg st xs netMoveResize windowId globalPos edges).outcome =
          .returned (some atom) ∧
        UngrabsBeforeSending
          (doStartSystemMoveResize cfg st xs netMoveResize windowId globalPos edges).trace
          (x11_connection cfg st) (x11_appTime cfg st)
          (x11_appRootWindow cfg st (x11_appScreen cfg st))) ∧
    (windowId = 0 ∨ edges < 0 →
      (doStartSystemMoveResize cfg st xs netMoveResize windowId globalPos edges).trace = []) := by
  refine ⟨?_, doStartSystemMoveResize_guard cfg st xs netMoveResize windowId globalPos edges⟩
  intro hw he hx atom ha
  have hrun := doStartSystemMoveResize_run cfg st xs netMoveResize windowId globalPos edges
    atom hw he hx ha
  refine ⟨hrun.1, hrun.2, ?_⟩
  rw [hrun.1]
  refine ⟨⟨internAtomRequests cfg st netMoveResize, [],
    [Action.xcb_flush (x11_connection cfg st)],
    moveResizeMessage atom windowId globalPos edges, ?_⟩, ?_⟩
  · simp [moveResizeRequests, _NET_WM_SENDEVENT_MASK]
  · simp [moveResizeRequests]

/-- Witness of C7, amended: the first move request of window 77 on an xcb
session, in a build with assertions. -/
theorem doStartSystemMoveResize_ungrabs_first_witness :
    (77 : Nat) ≠ 0 ∧ (0 : Int) ≤ _NET_WM_MOVERESIZE_MOVE ∧
    X11Ready debugQt5140 xcbSession ∧
    AtomReady debugQt5140 sampleXServer none 400 ∧
    (doStartSystemMoveResize debugQt5140 xcbSession sampleXServer none 77
        { x := 10, y := 20 } _NET_WM_MOVERESIZE_MOVE).trace =
      internAtomRequests debugQt5140 xcbSession none ++
        moveResizeRequests debugQt5140 xcbSession 400 77 { x := 10, y := 20 }
          _NET_WM_MOVERESIZE_MOVE :=
  ⟨by decide, by decide, ⟨by decide, fun _ => by decide⟩,
    ⟨Or.inr ⟨rfl, rfl⟩, fun _ _ => by decide⟩,
    ((doStartSystemMoveResize_ungrabs_first debugQt5140 xcbSession sampleXServer none 77
      { x := 10, y := 20 } _NET_WM_MOVERESIZE_MOVE).1 (by decide) (by decide)
      ⟨by decide, fun _ => by decide⟩ 400 ⟨Or.inr ⟨rfl, rfl⟩, fun _ _ => by decide⟩).1⟩

/-- C10, as stated, fails: for the window id `2^32 + 5` the client message
carries the window 5, not the id, because `xcb_window_t` has 32 bits and `WId`
has the width of a pointer. -/
theorem moveResize_message_window_truncated :
    (4294967301 : Nat) ≠ 0 ∧ (0 : Int) ≤ _NET_WM_MOVERESIZE_MOVE ∧
    sentClientMessages
        (doStartSystemMoveResize debugQt5140 xcbSession sampleXServer none 4294967301
          { x := 10, y := 20 } _NET_WM_MOVERESIZE_MOVE).trace =
      [{ response_type := 33, format := 32, sequence := 0, window := 5, type := 400,
         data32 := [10, 20, 8, 1, 0] }] ∧
    (5 : Nat) ≠ 4294967301 := by
  decide

/-- C10, amended: for every non-zero window id `w`, position `(x, y)` and
edges code `e >= 0` (a C `int`), every client message that
`doStartSystemMoveResize` sends has response type CLIENT_MESSAGE, format 32,
window `w mod 2^32` (which is `w` for every id below `2^32`), type the interned
`_NET_WM_MOVERESIZE` atom, data words `[x mod 2^32, y mod 2^32, e, 1, 0]` and
zero elsewhere; and when the X11 session and the atom are there, exactly one
such message is sent. -/
theorem moveResize_message_fields (cfg : BuildConfig) (st : GuiState) (xs : XServer)
    (netMoveResize : Option Nat) (windowId : Nat) (globalPos : QPoint) (edges : Int)
    (hw : windowId ≠ 0) (he : 0 ≤ edges) (hint : IsCInt edges) :
    (∀ ev ∈ sentClientMessages
        (doStartSystemMoveResize cfg st xs netMoveResize windowId globalPos edges).trace,
      ∃ atom, InternedAtom xs netMoveResize atom ∧
        ev = { response_type := XCB_CLIENT_MESSAGE, format := 32, sequence := 0,
               window := windowId % 4294967296, type := atom,
               data32 := [(globalPos.x % 4294967296).toNat,
                 (globalPos.y % 4294967296).toNat, edges.toNat, XCB_BUTTON_INDEX_1, 0] }) ∧
    (X11Ready cfg st → ∀ atom, AtomReady cfg xs netMoveResize atom →
      sentClientMessages
          (doStartSystemMoveResize cfg st xs netMoveResize windowId globalPos edges).trace =
        [{ response_type := XCB_CLIENT_MESSAGE, format := 32, sequence := 0,
           window := windowId % 4294967296, type := atom,
           data32 := [(globalPos.x % 4294967296).toNat,
             (globalPos.y % 4294967296).toNat, edges.toNat, XCB_BUTTON_INDEX_1, 0] }]) ∧
    (windowId < 4294967296 → windowId % 4294967296 = windowId) := by
  have hmsg : ∀ atom, moveResizeMessage atom windowId globalPos edges =
      { response_type := XCB_CLIENT_MESSAGE, format := 32, sequence := 0,
        window := windowId % 4294967296, type := atom,
        data32 := [(globalPos.x % 4294967296).toNat,
          (globalPos.y % 4294967296).toNat, edges.toNat, XCB_BUTTON_INDEX_1, 0] } := by
    intro atom
    unfold moveResizeMessage
    rw [toUInt32_of_isCInt edges he hint]
    rfl
  refine ⟨?_, ?_, fun h => Nat.mod_eq_of_lt h⟩
  · intro ev hev
    rcases doStartSystemMoveResize_sent cfg st xs netMoveResize windowId globalPos edges with
      h | ⟨atom, hatom, h⟩
    · rw [h] at hev
      cases hev
    · rw [h] at hev
      refine ⟨atom, hatom, ?_⟩
      rw [← hmsg atom]
      simpa using hev
  · intro hx atom ha
    rw [(doStartSystemMoveResize_run cfg st xs netMoveResize windowId globalPos edges atom
      hw he hx ha).1, ← hmsg atom]
    cases netMoveResize <;> simp [internAtomRequests, moveResizeRequests, sentClientMessages]

/-- Witness of C10, amended: the first move request of window 77 at (-1, 20)
on an xcb session. -/
theorem moveResize_message_fields_witness :
    (77 : Nat) ≠ 0 ∧ (0 : Int) ≤ _NET_WM_MOVERESIZE_MOVE ∧ IsCInt _NET_WM_MOVERESIZE_MOVE ∧
    X11Ready debugQt5140 xcbSession ∧ AtomReady debugQt5140 sampleXServer none 400 ∧
    sentClientMessages
        (doStartSystemMoveResize debugQt5140 xcbSession sampleXServer none 77
          { x := -1, y := 20 } _NET_WM_MOVERESIZE_MOVE).trace =
      [{ response_type := XCB_CLIENT_MESSAGE, format := 32, sequence := 0,
         window := 77 % 4294967296, type := 400,
         data32 := [((-1 : Int) % 4294967296).toNat, ((20 : Int) % 4294967296).toNat,
           _NET_WM_MOVERESIZE_MOVE.toNat, XCB_BUTTON_INDEX_1, 0] }] :=
  ⟨by decide, by decide, ⟨by decide, by decide⟩, ⟨by decide, fun _ => by decide⟩,
    ⟨Or.inr ⟨rfl, rfl⟩, fun _ _ => by decide⟩,
    (moveResize_message_fields debugQt5140 xcbSession sampleXServer none 77
      { x := -1, y := 20 } _NET_WM_MOVERESIZE_MOVE (by decide) (by decide)
      ⟨by decide, by decide⟩).2.1
      ⟨by decide, fun _ => by decide⟩ 400 ⟨Or.inr ⟨rfl, rfl⟩, fun _ _ => by decide⟩⟩


/-- C11: `getFrameBorderColor(false)` returns `kDefaultDarkGrayColor`, whatever
that constant is, and `getFrameBorderColor(true)` returns exactly
`getWmThemeColor()`, which is the default-constructed colour and is not valid;
`isTitleBarColorized` is false. The functions read no state, so the active
border colour is never a valid colour. -/
theorem getFrameBorderColor_values (kDefaultDarkGrayColor : QColor) :
    getFrameBorderColor kDefaultDarkGrayColor false = kDefaultDarkGrayColor ∧
    getFrameBorderColor kDefaultDarkGrayColor true = getWmThemeColor ∧
    getWmThemeColor = QColor.defaultConstructed ∧
    QColor.isValid getWmThemeColor = false ∧
    isTitleBarColorized = false ∧
    QColor.isValid (getFrameBorderColor kDefaultDarkGrayColor true) = false := by
  refine ⟨?_, ?_, rfl, rfl, rfl, ?_⟩
  · simp [getFrameBorderColor]
  · simp [getFrameBorderColor]
  · simp [getFrameBorderColor, getWmThemeColor, QColor.defaultConstructed, QColor.isValid]

end FramelessHelper
